import Mathlib

/-
Shallow embedding of the lung-cancer risk service:
- src/backend/app.py     (serving: parsing, scaling, prediction, prevalence adjustment)
- src/backend/lungcancer.py (training: label parsing, class reweighting factor)

Python floats are modelled as exact rationals (ℚ); the special float values
produced by parsing the strings inf/infinity/nan are modelled explicitly by the
PyNum type, since the serving code can receive them from callers.  Python
strings are modelled as lists of characters; str.strip / str.lower are modelled
on ASCII, which covers every literal the code compares against.  Overflow of
decimal literals to infinity (float("1e400") = inf) is not modelled: rationals
are arbitrary precision.
-/

namespace LungRisk

/-! ### Python string primitives (ASCII model of str.strip / str.lower) -/

/-- ASCII lowercasing of one character, as Python str.lower does on ASCII. -/
def lowerChar (c : Char) : Char :=
  if 'A' ≤ c ∧ c ≤ 'Z' then Char.ofNat (c.toNat + 32) else c

/-- Python str.lower on an ASCII string. -/
def pyLower (s : List Char) : List Char := s.map lowerChar

/-- Python whitespace characters removed by str.strip (ASCII subset). -/
def isPySpace (c : Char) : Bool :=
  c = ' ' ∨ c = '\t' ∨ c = '\n' ∨ c = '\r' ∨ c = Char.ofNat 11 ∨ c = Char.ofNat 12

/-- Python str.strip: drop leading and trailing whitespace. -/
def pyStrip (s : List Char) : List Char :=
  ((s.dropWhile isPySpace).reverse.dropWhile isPySpace).reverse

/-! ### Python float values and float() string parsing -/

/-- A Python float as seen by this service: a finite value (modelled exactly as
a rational) or one of the special values inf, -inf, nan. -/
inductive PyNum where
  | fin (q : ℚ)
  | inf
  | ninf
  | nan
deriving DecidableEq

/-- Whether a PyNum is a finite real number (neither an infinity nor NaN). -/
def PyNum.isFinite : PyNum → Bool
  | .fin _ => true
  | _ => false

/-- Python comparison x >= c for a float x and finite c: inf compares greater,
-inf compares smaller, and every comparison with nan is False. -/
def pyGe (x : PyNum) (c : ℚ) : Bool :=
  match x with
  | .fin q => c ≤ q
  | .inf => true
  | .ninf => false
  | .nan => false

/-- Value of a digit string read in base 10. -/
def digitsToNat (l : List Char) : ℕ :=
  l.foldl (fun a c => 10 * a + (c.toNat - 48)) 0

/-- The shape of a string offered to Python float(): one of the special words
inf/infinity/nan with a sign, a decimal literal split into its sign, integer
digits, fraction digits, exponent sign and exponent digits, or a parse error. -/
inductive ParseShape where
  | special (neg : Bool) (isNan : Bool)
  | dec (neg : Bool) (ip fp : List Char) (eneg : Bool) (ed : List Char)
  | fail
deriving DecidableEq

/-- Shape analysis of Python float() on an already stripped, lowercased
string: optional sign, then inf / infinity / nan or a decimal literal with
optional fraction and exponent.  fail where Python raises ValueError. -/
def parseShape (s : List Char) : ParseShape :=
  let signRest : Bool × List Char :=
    match s with
    | '+' :: t => (false, t)
    | '-' :: t => (true, t)
    | t => (false, t)
  let neg := signRest.1
  let r := signRest.2
  if r = ['i', 'n', 'f'] ∨ r = ['i', 'n', 'f', 'i', 'n', 'i', 't', 'y'] then
    ParseShape.special neg false
  else if r = ['n', 'a', 'n'] then
    ParseShape.special neg true
  else
    let ip := r.takeWhile Char.isDigit
    let r1 := r.dropWhile Char.isDigit
    let fp : List Char :=
      match r1 with
      | '.' :: t => t.takeWhile Char.isDigit
      | _ => []
    let r2 : List Char :=
      match r1 with
      | '.' :: t => t.dropWhile Char.isDigit
      | _ => r1
    if ip.isEmpty ∧ fp.isEmpty then ParseShape.fail
    else
      match r2 with
      | [] => ParseShape.dec neg ip fp false []
      | 'e' :: t =>
        let esignRest : Bool × List Char :=
          match t with
          | '+' :: u => (false, u)
          | '-' :: u => (true, u)
          | u => (false, u)
        let ed := esignRest.2.takeWhile Char.isDigit
        if ed.isEmpty ∨ ¬ (esignRest.2.dropWhile Char.isDigit).isEmpty then ParseShape.fail
        else ParseShape.dec neg ip fp esignRest.1 ed
      | _ => ParseShape.fail

/-- The rational value of a decimal literal from its parsed parts:
sign, integer digits, fraction digits, exponent sign, exponent digits. -/
def decValue (neg : Bool) (ip fp : List Char) (eneg : Bool) (ed : List Char) : ℚ :=
  let mant : ℚ := (digitsToNat ip : ℚ) + (digitsToNat fp : ℚ) / 10 ^ fp.length
  let mant := if neg then -mant else mant
  if eneg then mant / 10 ^ digitsToNat ed else mant * 10 ^ digitsToNat ed

/-- Python float(s) on an already stripped, lowercased string. -/
def pyFloatOfString (s : List Char) : Option PyNum :=
  match parseShape s with
  | ParseShape.special neg false => some (if neg then PyNum.ninf else PyNum.inf)
  | ParseShape.special _ true => some PyNum.nan
  | ParseShape.dec neg ip fp eneg ed => some (PyNum.fin (decValue neg ip fp eneg ed))
  | ParseShape.fail => Option.none

/-! ### Loosely-typed caller values -/

/-- A JSON-borne value as the pydantic `Any` fields receive it: absent (None),
a boolean, a (finite) number, or a string. -/
inductive Value where
  | none
  | bool (b : Bool)
  | num (q : ℚ)
  | str (s : List Char)
deriving DecidableEq

/-! ### app.py helpers -/

/-- Default value of the eps parameter of _clip01 in app.py (1e-12). -/
def eps : ℚ := 1 / 10 ^ 12

/-- app.py _clip01: clamp a float into [eps, 1 - eps]. -/
def _clip01 (x : ℚ) : ℚ := max (min x (1 - eps)) eps

/-- Python round-half-to-even of a rational to the nearest integer, the
semantics of round() used by app.py (modelled exactly on rationals). -/
def roundHalfEven (x : ℚ) : ℤ :=
  if x - ⌊x⌋ < 1 / 2 then ⌊x⌋
  else if 1 / 2 < x - ⌊x⌋ then ⌊x⌋ + 1
  else if ⌊x⌋ % 2 = 0 then ⌊x⌋ else ⌊x⌋ + 1

/-- Python round(y, 2): round to two decimal places, half to even. -/
def pyRound2 (y : ℚ) : ℚ := (roundHalfEven (y * 100) : ℚ) / 100

/-- app.py _to_percent: None passes through; otherwise the probability is
capped into [0, 0.9999], multiplied by 100 and rounded to two decimals. -/
def _to_percent : Option ℚ → Option ℚ
  | Option.none => Option.none
  | some p => some (pyRound2 (max (min p (9999 / 10000)) 0 * 100))

/-- app.py prior_adjust: clip the probability, return it if either prior is
outside (0,1), otherwise reweight its odds by the prior odds ratio. -/
def prior_adjust (p pi_train pi_deploy : ℚ) : ℚ :=
  let p := _clip01 p
  if 0 < pi_train ∧ pi_train < 1 ∧ 0 < pi_deploy ∧ pi_deploy < 1 then
    let odds := p / (1 - p)
    let base := (pi_deploy / (1 - pi_deploy)) / (pi_train / (1 - pi_train))
    _clip01 ((odds * base) / (1 + odds * base))
  else p

/-- The string forms app.py parse_bin maps to 1: {"1","y","yes","true","t"}. -/
def yes_forms : List (List Char) :=
  [['1'], ['y'], ['y', 'e', 's'], ['t', 'r', 'u', 'e'], ['t']]

/-- The string forms app.py parse_bin maps to 0: {"0","n","no","false","f"}. -/
def no_forms : List (List Char) :=
  [['0'], ['n'], ['n', 'o'], ['f', 'a', 'l', 's', 'e'], ['f']]

/-- app.py parse_bin.  None → 0; booleans map directly; any other value is
rendered with str, stripped and lowercased, checked against the yes/no string
sets, then parsed as a float and thresholded at 0.5; unparseable → 0.
For a number, Python str followed by float round-trips to the same value and
its decimal rendering meets the string sets only at "0"/"1", where membership
agrees with the threshold, so the number case reduces to the threshold. -/
def parse_bin : Value → ℤ
  | Value.none => 0
  | Value.bool b => if b then 1 else 0
  | Value.num q => if 1 / 2 ≤ q then 1 else 0
  | Value.str s =>
    let t := pyLower (pyStrip s)
    if t ∈ yes_forms then 1
    else if t ∈ no_forms then 0
    else
      match pyFloatOfString t with
      | some x => if pyGe x (1 / 2) then 1 else 0
      | Option.none => 0

/-- app.py parse_float: Python float(val) with a default on failure.  float of
None raises (→ default); booleans become 0.0/1.0; numbers pass through;
strings are stripped and parsed case-insensitively (inf/nan included). -/
def parse_float (v : Value) (default : ℚ) : PyNum :=
  match v with
  | Value.none => PyNum.fin default
  | Value.bool b => PyNum.fin (if b then 1 else 0)
  | Value.num q => PyNum.fin q
  | Value.str s =>
    match pyFloatOfString (pyLower (pyStrip s)) with
    | some x => x
    | Option.none => PyNum.fin default

/-! ### app.py scoring pipeline -/

/-- FEATURE_ORDER in app.py (equal to the default list and to the
NUMERIC_COLS + BINARY_COLS order persisted by lungcancer.py). -/
def FEATURE_ORDER : List String :=
  ["age", "pack_years", "gender", "radon_exposure", "asbestos_exposure",
   "secondhand_smoke_exposure", "copd_diagnosis", "alcohol_consumption", "family_history"]

/-- The pydantic PatientInput model: nine loosely-typed fields. -/
structure PatientInput where
  age : Value
  pack_years : Value
  gender : Value
  radon_exposure : Value
  asbestos_exposure : Value
  secondhand_smoke_exposure : Value
  copd_diagnosis : Value
  alcohol_consumption : Value
  family_history : Value

/-- The parsed (pre-scale) feature dict features_raw built in predict_risk. -/
structure FeaturesRaw where
  age : PyNum
  pack_years : PyNum
  gender : ℤ
  radon_exposure : ℤ
  asbestos_exposure : ℤ
  secondhand_smoke_exposure : ℤ
  copd_diagnosis : ℤ
  alcohol_consumption : ℤ
  family_history : ℤ
deriving DecidableEq

/-- The process-level serving context: priors from meta.json / environment,
the persisted StandardScaler statistics for age and pack_years (an affine
per-column map, spec §4.2), and the opaque calibrated model. -/
structure Ctx where
  PI_TRAIN : Option ℚ
  PI_DEPLOY : Option ℚ
  age_mean : ℚ
  age_scale : ℚ
  py_mean : ℚ
  py_scale : ℚ
  model : List PyNum → ℚ

/-- StandardScaler.transform on one column: (x - mean) / scale, extended to
the special float values with IEEE semantics (scale is positive for a fitted
StandardScaler; the scale = 0 branches are never reached there). -/
def pyScale (m s : ℚ) : PyNum → PyNum
  | PyNum.fin q => PyNum.fin ((q - m) / s)
  | PyNum.inf => if 0 < s then PyNum.inf else if s < 0 then PyNum.ninf else PyNum.nan
  | PyNum.ninf => if 0 < s then PyNum.ninf else if s < 0 then PyNum.inf else PyNum.nan
  | PyNum.nan => PyNum.nan

/-- Step 1 of predict_risk: the features_raw dict. -/
def features_raw (p : PatientInput) : FeaturesRaw :=
  { age := parse_float p.age 0
    pack_years := parse_float p.pack_years 0
    gender := parse_bin p.gender
    radon_exposure := parse_bin p.radon_exposure
    asbestos_exposure := parse_bin p.asbestos_exposure
    secondhand_smoke_exposure := parse_bin p.secondhand_smoke_exposure
    copd_diagnosis := parse_bin p.copd_diagnosis
    alcohol_consumption := parse_bin p.alcohol_consumption
    family_history := parse_bin p.family_history }

/-- Steps 2-3 of predict_risk: scale the numerics with the saved scaler and
lay the row out in FEATURE_ORDER. -/
def features_vector (ctx : Ctx) (p : PatientInput) : List PyNum :=
  let fr := features_raw p
  [ pyScale ctx.age_mean ctx.age_scale fr.age,
    pyScale ctx.py_mean ctx.py_scale fr.pack_years,
    PyNum.fin fr.gender,
    PyNum.fin fr.radon_exposure,
    PyNum.fin fr.asbestos_exposure,
    PyNum.fin fr.secondhand_smoke_exposure,
    PyNum.fin fr.copd_diagnosis,
    PyNum.fin fr.alcohol_consumption,
    PyNum.fin fr.family_history ]

/-- Step 4 of predict_risk: p_raw = _clip01(model.predict_proba(x)[0,1]). -/
def p_raw (ctx : Ctx) (p : PatientInput) : ℚ :=
  _clip01 (ctx.model (features_vector ctx p))

/-- Step 5 of predict_risk: use_pi_deploy = pi_deploy if present else PI_DEPLOY. -/
def use_pi_deploy (ctx : Ctx) (pi_deploy : Option ℚ) : Option ℚ :=
  match pi_deploy with
  | some d => some d
  | Option.none => ctx.PI_DEPLOY

/-- Step 5 of predict_risk: used_adjustment = (PI_TRAIN is not None) and
(use_pi_deploy is not None) and (0 < use_pi_deploy < 1).  Note the code does
not range-check PI_TRAIN here. -/
def used_adjustment (ctx : Ctx) (pi_deploy : Option ℚ) : Bool :=
  match ctx.PI_TRAIN, use_pi_deploy ctx pi_deploy with
  | some _, some d => decide (0 < d ∧ d < 1)
  | _, _ => false

/-- Step 5 of predict_risk: p_adj = prior_adjust(p_raw, PI_TRAIN, use_pi_deploy)
if used_adjustment else None.  The match form is equal to the code: the
adjusted branch is taken exactly when used_adjustment is true. -/
def p_adj (ctx : Ctx) (p : PatientInput) (pi_deploy : Option ℚ) : Option ℚ :=
  match ctx.PI_TRAIN, use_pi_deploy ctx pi_deploy with
  | some t, some d =>
    if 0 < d ∧ d < 1 then some (prior_adjust (p_raw ctx p) t d) else Option.none
  | _, _ => Option.none

/-- Step 5 of predict_risk: p_main = p_adj if used_adjustment else p_raw. -/
def p_main (ctx : Ctx) (p : PatientInput) (pi_deploy : Option ℚ) : ℚ :=
  match p_adj ctx p pi_deploy with
  | some a => a
  | Option.none => p_raw ctx p

/-- The JSON body returned by POST /predict (the model name, a transport
detail, is omitted). -/
structure PredictResponse where
  risk_percentage : Option ℚ
  raw_risk_percentage : Option ℚ
  adjusted_risk_percentage : Option ℚ
  adjusted_for_prevalence : Bool
  pi_train : Option ℚ
  pi_deploy : Option ℚ
  inputs_used : FeaturesRaw
deriving DecidableEq

/-- app.py predict_risk: the full request → response transformation. -/
def predict_risk (ctx : Ctx) (p : PatientInput) (pi_deploy : Option ℚ) :
    PredictResponse :=
  { risk_percentage := _to_percent (some (p_main ctx p pi_deploy))
    raw_risk_percentage := _to_percent (some (p_raw ctx p))
    adjusted_risk_percentage :=
      match p_adj ctx p pi_deploy with
      | some a => _to_percent (some a)
      | Option.none => Option.none
    adjusted_for_prevalence := used_adjustment ctx pi_deploy
    pi_train := ctx.PI_TRAIN
    pi_deploy := use_pi_deploy ctx pi_deploy
    inputs_used := features_raw p }

/-! ### lungcancer.py -/

/-- lungcancer.py _parse_bin: identical to the serving parser except that it
has no explicit bool branch — a boolean goes through str() ("True"/"False"),
strip and lower, and lands in the yes/no string sets. -/
def _parse_bin : Value → ℤ
  | Value.none => 0
  | Value.bool b =>
    let t := pyLower (pyStrip (if b then ['T', 'r', 'u', 'e'] else ['F', 'a', 'l', 's', 'e']))
    if t ∈ yes_forms then 1
    else if t ∈ no_forms then 0
    else
      match pyFloatOfString t with
      | some x => if pyGe x (1 / 2) then 1 else 0
      | Option.none => 0
  | Value.num q => if 1 / 2 ≤ q then 1 else 0
  | Value.str s =>
    let t := pyLower (pyStrip s)
    if t ∈ yes_forms then 1
    else if t ∈ no_forms then 0
    else
      match pyFloatOfString t with
      | some x => if pyGe x (1 / 2) then 1 else 0
      | Option.none => 0

/-- lungcancer.py train_calibrated_xgb, lines 135-137: the scale_pos_weight
factor.  pos = sum of the 0/1 labels, neg = count - pos, and
spw = (neg / max(pos, 1)) if pos else 1.0. -/
def spw_of (ytr : List ℤ) : ℚ :=
  let pos : ℤ := ytr.sum
  let neg : ℤ := (ytr.length : ℤ) - pos
  if pos ≠ 0 then (neg : ℚ) / ((max pos 1 : ℤ) : ℚ) else 1

/-! ### Concrete fixtures used by the scenario theorems -/

/-- A concrete serving context: an out-of-range persisted training prior
(PI_TRAIN = 2), a configured default deployment prior, identity scaler
statistics and a constant calibrated model returning probability 0.3. -/
def testCtx : Ctx :=
  { PI_TRAIN := some 2
    PI_DEPLOY := some (1 / 500)
    age_mean := 0
    age_scale := 1
    py_mean := 0
    py_scale := 1
    model := fun _ => 3 / 10 }

/-- A concrete well-formed patient request. -/
def testPatient : PatientInput :=
  { age := Value.num 50
    pack_years := Value.num 20
    gender := Value.str ['y', 'e', 's']
    radon_exposure := Value.str ['n', 'o']
    asbestos_exposure := Value.num 0
    secondhand_smoke_exposure := Value.bool true
    copd_diagnosis := Value.str ['n']
    alcohol_consumption := Value.num 1
    family_history := Value.str ['n', 'o'] }

/-- A patient request whose age field is the string "inf", which Python
float() parses to the infinite float. -/
def infPatient : PatientInput :=
  { age := Value.str ['i', 'n', 'f']
    pack_years := Value.num 0
    gender := Value.str ['n', 'o']
    radon_exposure := Value.str ['n', 'o']
    asbestos_exposure := Value.str ['n', 'o']
    secondhand_smoke_exposure := Value.str ['n', 'o']
    copd_diagnosis := Value.str ['n', 'o']
    alcohol_consumption := Value.str ['n', 'o']
    family_history := Value.str ['n', 'o'] }

/-! ### Helper lemmas about _clip01 -/

lemma eps_pos : (0 : ℚ) < eps := by norm_num [eps]

lemma eps_lt_one_sub : eps < 1 - eps := by norm_num [eps]

lemma clip01_mem (x : ℚ) : eps ≤ _clip01 x ∧ _clip01 x ≤ 1 - eps := by
  unfold _clip01
  exact ⟨le_max_right _ _, max_le (min_le_right _ _) (le_of_lt eps_lt_one_sub)⟩

lemma clip01_eq_self {x : ℚ} (h1 : eps ≤ x) (h2 : x ≤ 1 - eps) : _clip01 x = x := by
  unfold _clip01
  rw [min_eq_left h2, max_eq_left h1]

lemma clip01_idem (x : ℚ) : _clip01 (_clip01 x) = _clip01 x :=
  clip01_eq_self (clip01_mem x).1 (clip01_mem x).2

lemma clip01_mono {a b : ℚ} (h : a ≤ b) : _clip01 a ≤ _clip01 b :=
  max_le_max (min_le_min h le_rfl) le_rfl

lemma clip01_eq_of_interior {x : ℚ} (hl : eps < _clip01 x) (hh : _clip01 x < 1 - eps) :
    _clip01 x = x := by
  unfold _clip01 at hl hh ⊢
  rcases le_total x (1 - eps) with h | h
  · rw [min_eq_left h] at hl ⊢
    rcases le_total eps x with h2 | h2
    · rw [max_eq_left h2]
    · rw [max_eq_right h2] at hl
      exact absurd hl (lt_irrefl _)
  · rw [min_eq_right h, max_eq_left (le_of_lt eps_lt_one_sub)] at hh
    exact absurd hh (lt_irrefl _)

lemma clip01_lt_of_lt {a b : ℚ} (hab : a < b)
    (h1 : _clip01 a < 1 - eps) (h2 : eps < _clip01 b) : _clip01 a < _clip01 b := by
  rcases lt_or_eq_of_le (clip01_mono (le_of_lt hab)) with h | h
  · exact h
  · exfalso
    have ha : _clip01 a = a := clip01_eq_of_interior (h ▸ h2) h1
    have hb : _clip01 b = b := clip01_eq_of_interior h2 (h ▸ h1)
    rw [ha, hb] at h
    exact absurd (h ▸ hab) (lt_irrefl _)

/-! ### Helper lemmas about prior_adjust -/

/-- The odds-reweighting formula computed by the valid branch of
prior_adjust, before the final clip. -/
def adjRaw (p pi_train pi_deploy : ℚ) : ℚ :=
  _clip01 p / (1 - _clip01 p) * (pi_deploy / (1 - pi_deploy) / (pi_train / (1 - pi_train))) /
    (1 + _clip01 p / (1 - _clip01 p) * (pi_deploy / (1 - pi_deploy) / (pi_train / (1 - pi_train))))

lemma prior_adjust_valid {t d : ℚ} (ht0 : 0 < t) (ht1 : t < 1)
    (hd0 : 0 < d) (hd1 : d < 1) (p : ℚ) :
    prior_adjust p t d = _clip01 (adjRaw p t d) := by
  simp only [prior_adjust]
  rw [if_pos ⟨ht0, ht1, hd0, hd1⟩]
  rfl

lemma prior_adjust_invalid {t d : ℚ} (h : ¬ (0 < t ∧ t < 1 ∧ 0 < d ∧ d < 1)) (p : ℚ) :
    prior_adjust p t d = _clip01 p := by
  unfold prior_adjust
  rw [if_neg h]

lemma adjRaw_self {p pi : ℚ} (hp1 : eps ≤ p) (hp2 : p ≤ 1 - eps)
    (h0 : 0 < pi) (h1 : pi < 1) : adjRaw p pi pi = p := by
  unfold adjRaw
  rw [clip01_eq_self hp1 hp2]
  have hbase : pi / (1 - pi) / (pi / (1 - pi)) = 1 :=
    div_self (ne_of_gt (div_pos h0 (by linarith)))
  rw [hbase, mul_one]
  have hp0 : (0 : ℚ) < p := lt_of_lt_of_le eps_pos hp1
  have h1p : (0 : ℚ) < 1 - p := by linarith [eps_pos]
  have h1p' : (1 : ℚ) - p ≠ 0 := ne_of_gt h1p
  have hden : 1 + p / (1 - p) = 1 / (1 - p) := by field_simp
  rw [hden, div_div_div_cancel_right₀]
  · exact div_one p
  · exact h1p'

lemma xratio_lt {x y : ℚ} (hx : 0 ≤ x) (hxy : x < y) : x / (1 + x) < y / (1 + y) := by
  have h1 : (0 : ℚ) < 1 + x := by linarith
  have h2 : (0 : ℚ) < 1 + y := by linarith
  rw [div_lt_div_iff h1 h2]
  nlinarith

lemma adjRaw_lt {p t d₁ d₂ : ℚ} (ht0 : 0 < t) (ht1 : t < 1)
    (hd0 : 0 < d₁) (hdd : d₁ < d₂) (hd1 : d₂ < 1) :
    adjRaw p t d₁ < adjRaw p t d₂ := by
  unfold adjRaw
  have hc0 : 0 < _clip01 p := lt_of_lt_of_le eps_pos (clip01_mem p).1
  have hc1 : _clip01 p < 1 := lt_of_le_of_lt (clip01_mem p).2 (by nlinarith [eps_pos])
  have hodds : 0 < _clip01 p / (1 - _clip01 p) := div_pos hc0 (by linarith)
  have hT : 0 < t / (1 - t) := div_pos ht0 (by linarith)
  have hd10 : d₁ < 1 := lt_trans hdd hd1
  have hd20 : 0 < d₂ := lt_trans hd0 hdd
  have hb1 : 0 < d₁ / (1 - d₁) := div_pos hd0 (by linarith)
  have hor : d₁ / (1 - d₁) < d₂ / (1 - d₂) := by
    rw [div_lt_div_iff (by linarith) (by linarith)]
    nlinarith
  have hbase : d₁ / (1 - d₁) / (t / (1 - t)) < d₂ / (1 - d₂) / (t / (1 - t)) := by
    rw [div_eq_mul_inv (d₁ / (1 - d₁)), div_eq_mul_inv (d₂ / (1 - d₂))]
    exact mul_lt_mul_of_pos_right hor (inv_pos.mpr hT)
  have hx0 : 0 ≤ _clip01 p / (1 - _clip01 p) * (d₁ / (1 - d₁) / (t / (1 - t))) :=
    le_of_lt (mul_pos hodds (div_pos hb1 hT))
  exact xratio_lt hx0 (mul_lt_mul_of_pos_left hbase hodds)

/-! ### Helper lemmas about rounding and _to_percent -/

lemma roundHalfEven_nonneg {x : ℚ} (hx : 0 ≤ x) : 0 ≤ roundHalfEven x := by
  have h0 : 0 ≤ ⌊x⌋ := Int.floor_nonneg.mpr hx
  unfold roundHalfEven
  split_ifs <;> omega

lemma roundHalfEven_le {x : ℚ} {n : ℤ} (h : x ≤ n) : roundHalfEven x ≤ n := by
  have hfn : ⌊x⌋ ≤ n := by
    have := Int.floor_le_floor h
    rwa [Int.floor_intCast] at this
  have hfx : (⌊x⌋ : ℚ) ≤ x := Int.floor_le x
  unfold roundHalfEven
  split_ifs with hA hB hC
  · exact hfn
  · have hhalf : (1 : ℚ) / 2 ≤ x - ⌊x⌋ := le_of_not_lt hA
    have : (⌊x⌋ : ℚ) < (n : ℚ) := by linarith
    have : ⌊x⌋ < n := by exact_mod_cast this
    omega
  · exact hfn
  · have hhalf : (1 : ℚ) / 2 ≤ x - ⌊x⌋ := le_of_not_lt hA
    have : (⌊x⌋ : ℚ) < (n : ℚ) := by linarith
    have : ⌊x⌋ < n := by exact_mod_cast this
    omega

lemma to_percent_some (p : ℚ) :
    _to_percent (some p) = some (pyRound2 (max (min p (9999 / 10000)) 0 * 100)) := rfl

lemma to_percent_bounds (p : ℚ) :
    0 ≤ pyRound2 (max (min p (9999 / 10000)) 0 * 100) ∧
    pyRound2 (max (min p (9999 / 10000)) 0 * 100) ≤ 9999 / 100 := by
  set c := max (min p (9999 / 10000)) 0 with hc
  have hc0 : 0 ≤ c := le_max_right _ _
  have hc1 : c ≤ 9999 / 10000 := max_le (min_le_right _ _) (by norm_num)
  unfold pyRound2
  have hr0 : 0 ≤ roundHalfEven (c * 100 * 100) :=
    roundHalfEven_nonneg (by positivity)
  have hr1 : roundHalfEven (c * 100 * 100) ≤ (9999 : ℤ) :=
    roundHalfEven_le (by push_cast; nlinarith)
  have hr1' : ((roundHalfEven (c * 100 * 100) : ℤ) : ℚ) ≤ 9999 := by exact_mod_cast hr1
  have hr0' : (0 : ℚ) ≤ ((roundHalfEven (c * 100 * 100) : ℤ) : ℚ) := by exact_mod_cast hr0
  constructor
  · exact div_nonneg hr0' (by norm_num)
  · rw [div_le_div_iff (by norm_num) (by norm_num)]
    nlinarith

/-! ### Helper lemmas about parse_bin -/

lemma parse_bin_str (s : List Char) :
    parse_bin (Value.str s) =
      (if pyLower (pyStrip s) ∈ yes_forms then 1
       else if pyLower (pyStrip s) ∈ no_forms then 0
       else
         match pyFloatOfString (pyLower (pyStrip s)) with
         | some x => if pyGe x (1 / 2) then 1 else 0
         | Option.none => 0) := rfl

lemma parse_bin_str_yes {s : List Char} (h : pyLower (pyStrip s) ∈ yes_forms) :
    parse_bin (Value.str s) = 1 := by
  rw [parse_bin_str, if_pos h]

lemma parse_bin_str_num {s : List Char} {x : PyNum}
    (h1 : pyLower (pyStrip s) ∉ yes_forms) (h2 : pyLower (pyStrip s) ∉ no_forms)
    (h3 : pyFloatOfString (pyLower (pyStrip s)) = some x) :
    parse_bin (Value.str s) = if pyGe x (1 / 2) then 1 else 0 := by
  rw [parse_bin_str, if_neg h1, if_neg h2, h3]

lemma parse_bin_str_fail {s : List Char}
    (h1 : pyLower (pyStrip s) ∉ yes_forms) (h2 : pyLower (pyStrip s) ∉ no_forms)
    (h3 : pyFloatOfString (pyLower (pyStrip s)) = Option.none) :
    parse_bin (Value.str s) = 0 := by
  rw [parse_bin_str, if_neg h1, if_neg h2, h3]

lemma parse_bin_mem (v : Value) : parse_bin v = 0 ∨ parse_bin v = 1 := by
  cases v with
  | none => exact Or.inl rfl
  | bool b => cases b
              · exact Or.inl rfl
              · exact Or.inr rfl
  | num q =>
    show (if 1 / 2 ≤ q then (1 : ℤ) else 0) = 0 ∨ (if 1 / 2 ≤ q then (1 : ℤ) else 0) = 1
    split_ifs
    · exact Or.inr rfl
    · exact Or.inl rfl
  | str s =>
    rw [parse_bin_str]
    split_ifs
    · exact Or.inr rfl
    · exact Or.inl rfl
    · cases pyFloatOfString (pyLower (pyStrip s)) with
      | none => exact Or.inl rfl
      | some x =>
        show (if pyGe x (1 / 2) then (1 : ℤ) else 0) = 0 ∨
          (if pyGe x (1 / 2) then (1 : ℤ) else 0) = 1
        split_ifs
        · exact Or.inr rfl
        · exact Or.inl rfl

lemma parse_bin_idem (v : Value) :
    parse_bin (Value.num ((parse_bin v : ℤ) : ℚ)) = parse_bin v := by
  rcases parse_bin_mem v with h | h <;> rw [h]
  · show (if 1 / 2 ≤ ((0 : ℤ) : ℚ) then (1 : ℤ) else 0) = 0
    norm_num
  · show (if 1 / 2 ≤ ((1 : ℤ) : ℚ) then (1 : ℤ) else 0) = 1
    norm_num

/-! ### Claim C1 -/

/-- C1 counterexample: at the probability 1 with an invalid training prior,
prior_adjust returns the clipped value 1 - eps, not the input unmodified. -/
theorem C1_counterexample :
    (0 : ℚ) ≤ 0 ∧ prior_adjust 1 0 (1 / 2) = 1 - eps ∧ prior_adjust 1 0 (1 / 2) ≠ 1 := by
  refine ⟨le_refl 0, ?_, ?_⟩ <;> norm_num [prior_adjust, _clip01, eps]

/-- C1 (amended): whenever piTrain or piDeploy is ≤ 0 or ≥ 1, prior_adjust
returns the input probability clipped into [eps, 1 - eps]; in particular it
returns the input unmodified exactly when it already lies in that interval. -/
theorem C1_theorem (p t d : ℚ) (h : t ≤ 0 ∨ 1 ≤ t ∨ d ≤ 0 ∨ 1 ≤ d) :
    prior_adjust p t d = _clip01 p ∧
    (eps ≤ p → p ≤ 1 - eps → prior_adjust p t d = p) := by
  have hinv : ¬ (0 < t ∧ t < 1 ∧ 0 < d ∧ d < 1) := by
    rintro ⟨h1, h2, h3, h4⟩
    rcases h with h | h | h | h <;> linarith
  refine ⟨prior_adjust_invalid hinv p, fun hp1 hp2 => ?_⟩
  rw [prior_adjust_invalid hinv p, clip01_eq_self hp1 hp2]

/-- C1 witness: p = 1/2, piTrain = 0 (invalid), piDeploy = 1/2. -/
theorem C1_witness :
    ((0 : ℚ) ≤ 0 ∨ (1 : ℚ) ≤ 0 ∨ (1 : ℚ) / 2 ≤ 0 ∨ (1 : ℚ) ≤ 1 / 2) ∧
    eps ≤ (1 : ℚ) / 2 ∧ (1 : ℚ) / 2 ≤ 1 - eps ∧
    prior_adjust (1 / 2) 0 (1 / 2) = _clip01 (1 / 2) ∧
    prior_adjust (1 / 2) 0 (1 / 2) = 1 / 2 := by
  have h := C1_theorem (1 / 2) 0 (1 / 2) (Or.inl (le_refl 0))
  exact ⟨Or.inl (le_refl 0), by norm_num [eps], by norm_num [eps], h.1,
    h.2 (by norm_num [eps]) (by norm_num [eps])⟩

/-! ### Claim C3 -/

/-- C3 counterexample: p = 1e-13 lies in (0,1) and the priors are the valid
pair (1/2, 1/2), yet prior_adjust does not return p (it returns eps = 1e-12,
because p is clipped up to eps before the odds computation). -/
theorem C3_counterexample :
    (0 : ℚ) < 1 / 10 ^ 13 ∧ (1 : ℚ) / 10 ^ 13 < 1 ∧
    (0 : ℚ) < 1 / 2 ∧ (1 : ℚ) / 2 < 1 ∧
    prior_adjust (1 / 10 ^ 13) (1 / 2) (1 / 2) = 1 / 10 ^ 12 ∧
    prior_adjust (1 / 10 ^ 13) (1 / 2) (1 / 2) ≠ 1 / 10 ^ 13 := by
  refine ⟨by norm_num, by norm_num, by norm_num, by norm_num, ?_, ?_⟩ <;>
    norm_num [prior_adjust, _clip01, eps]

/-- C3 (amended): for every probability p in the unclipped band
[eps, 1 - eps] and every prior pi strictly in (0,1), equal training and
deployment priors make prior_adjust the identity on p. -/
theorem C3_theorem (p pi : ℚ) (hp1 : eps ≤ p) (hp2 : p ≤ 1 - eps)
    (h0 : 0 < pi) (h1 : pi < 1) : prior_adjust p pi pi = p := by
  rw [prior_adjust_valid h0 h1 h0 h1, adjRaw_self hp1 hp2 h0 h1,
    clip01_eq_self hp1 hp2]

/-- C3 witness: p = 1/2, pi = 1/3. -/
theorem C3_witness :
    eps ≤ (1 : ℚ) / 2 ∧ (1 : ℚ) / 2 ≤ 1 - eps ∧ (0 : ℚ) < 1 / 3 ∧ (1 : ℚ) / 3 < 1 ∧
    prior_adjust (1 / 2) (1 / 3) (1 / 3) = 1 / 2 :=
  ⟨by norm_num [eps], by norm_num [eps], by norm_num, by norm_num,
    C3_theorem (1 / 2) (1 / 3) (by norm_num [eps]) (by norm_num [eps])
      (by norm_num) (by norm_num)⟩

/-! ### Claim C4 -/

/-- C4 counterexample: with p = 1/2, piTrain = 1e-13 and the deployment
priors 1/2 < 2/3 (all in (0,1)), both adjusted outputs saturate at the clip
bound 1 - eps, so the map is not strictly increasing. -/
theorem C4_counterexample :
    (0 : ℚ) < 1 / 10 ^ 13 ∧ (1 : ℚ) / 10 ^ 13 < 1 ∧
    (0 : ℚ) < 1 / 2 ∧ (1 : ℚ) / 2 < 2 / 3 ∧ (2 : ℚ) / 3 < 1 ∧
    prior_adjust (1 / 2) (1 / 10 ^ 13) (1 / 2) = prior_adjust (1 / 2) (1 / 10 ^ 13) (2 / 3) ∧
    ¬ prior_adjust (1 / 2) (1 / 10 ^ 13) (1 / 2) < prior_adjust (1 / 2) (1 / 10 ^ 13) (2 / 3) := by
  have h1 : prior_adjust (1 / 2) (1 / 10 ^ 13) (1 / 2) = 1 - eps := by
    norm_num [prior_adjust, _clip01, eps]
  have h2 : prior_adjust (1 / 2) (1 / 10 ^ 13) (2 / 3) = 1 - eps := by
    norm_num [prior_adjust, _clip01, eps]
  refine ⟨by norm_num, by norm_num, by norm_num, by norm_num, by norm_num,
    h1.trans h2.symm, ?_⟩
  rw [h1, h2]
  exact lt_irrefl _

/-- C4 (amended): for fixed p and piTrain in (0,1), prior_adjust is weakly
increasing in piDeploy on (0,1), and strictly increasing whenever the two
outputs are not saturated at the same clip bound (the smaller output is
below 1 - eps and the larger is above eps). -/
theorem C4_theorem (p t d₁ d₂ : ℚ) (ht0 : 0 < t) (ht1 : t < 1)
    (hd0 : 0 < d₁) (hdd : d₁ < d₂) (hd1 : d₂ < 1) :
    prior_adjust p t d₁ ≤ prior_adjust p t d₂ ∧
    (prior_adjust p t d₁ < 1 - eps → eps < prior_adjust p t d₂ →
      prior_adjust p t d₁ < prior_adjust p t d₂) := by
  have e1 : prior_adjust p t d₁ = _clip01 (adjRaw p t d₁) :=
    prior_adjust_valid ht0 ht1 hd0 (lt_trans hdd hd1) p
  have e2 : prior_adjust p t d₂ = _clip01 (adjRaw p t d₂) :=
    prior_adjust_valid ht0 ht1 (lt_trans hd0 hdd) hd1 p
  have hlt := adjRaw_lt (p := p) ht0 ht1 hd0 hdd hd1
  constructor
  · rw [e1, e2]
    exact clip01_mono (le_of_lt hlt)
  · intro h1 h2
    rw [e1] at h1
    rw [e2] at h2
    rw [e1, e2]
    exact clip01_lt_of_lt hlt h1 h2

/-- C4 witness: p = 1/2, piTrain = 1/2, piDeploy going 1/4 → 1/2 gives the
strictly larger adjusted probability 1/4 < 1/2. -/
theorem C4_witness :
    (0 : ℚ) < 1 / 2 ∧ (1 : ℚ) / 2 < 1 ∧ (0 : ℚ) < 1 / 4 ∧ (1 : ℚ) / 4 < 1 / 2 ∧
    prior_adjust (1 / 2) (1 / 2) (1 / 4) < 1 - eps ∧
    eps < prior_adjust (1 / 2) (1 / 2) (1 / 2) ∧
    prior_adjust (1 / 2) (1 / 2) (1 / 4) < prior_adjust (1 / 2) (1 / 2) (1 / 2) := by
  have hA : prior_adjust (1 / 2) (1 / 2) (1 / 4) = 1 / 4 := by
    norm_num [prior_adjust, _clip01, eps]
  have hB : prior_adjust (1 / 2) (1 / 2) (1 / 2) = 1 / 2 := by
    norm_num [prior_adjust, _clip01, eps]
  refine ⟨by norm_num, by norm_num, by norm_num, by norm_num, ?_, ?_, ?_⟩
  · rw [hA]; norm_num [eps]
  · rw [hB]; norm_num [eps]
  · exact (C4_theorem (1 / 2) (1 / 2) (1 / 4) (1 / 2) (by norm_num) (by norm_num)
      (by norm_num) (by norm_num) (by norm_num)).2
      (by rw [hA]; norm_num [eps]) (by rw [hB]; norm_num [eps])

/-! ### Claim C5 -/

/-- C5: parse_bin maps true, the number 1 and every string whose stripped
lowercasing is a yes-form to 1; maps None, the empty string and any
unrecognized unparseable string to 0; thresholds numbers and numeric strings
at 0.5 with Python float comparison semantics; and is idempotent. -/
theorem C5_theorem :
    parse_bin (Value.bool true) = 1 ∧
    parse_bin (Value.num 1) = 1 ∧
    (∀ s : List Char, pyLower (pyStrip s) ∈ yes_forms → parse_bin (Value.str s) = 1) ∧
    parse_bin Value.none = 0 ∧
    parse_bin (Value.str []) = 0 ∧
    parse_bin (Value.str ['m', 'a', 'y', 'b', 'e']) = 0 ∧
    (∀ q : ℚ, parse_bin (Value.num q) = if 1 / 2 ≤ q then 1 else 0) ∧
    (∀ s : List Char, ∀ x : PyNum,
      pyLower (pyStrip s) ∉ yes_forms → pyLower (pyStrip s) ∉ no_forms →
      pyFloatOfString (pyLower (pyStrip s)) = some x →
      parse_bin (Value.str s) = if pyGe x (1 / 2) then 1 else 0) ∧
    (∀ s : List Char,
      pyLower (pyStrip s) ∉ yes_forms → pyLower (pyStrip s) ∉ no_forms →
      pyFloatOfString (pyLower (pyStrip s)) = Option.none →
      parse_bin (Value.str s) = 0) ∧
    (∀ v : Value, parse_bin (Value.num ((parse_bin v : ℤ) : ℚ)) = parse_bin v) := by
  refine ⟨rfl, ?_, fun s h => parse_bin_str_yes h, rfl, by decide, by decide,
    fun q => rfl, fun s x h1 h2 h3 => parse_bin_str_num h1 h2 h3,
    fun s h1 h2 h3 => parse_bin_str_fail h1 h2 h3, parse_bin_idem⟩
  show (if (1 : ℚ) / 2 ≤ 1 then (1 : ℤ) else 0) = 1
  norm_num

/-- C5 witness: the case-insensitive yes-string "YES" and the numeric string
"0.7", thresholded at 0.5. -/
theorem C5_witness :
    (pyLower (pyStrip "YES".data) ∈ yes_forms ∧ parse_bin (Value.str "YES".data) = 1) ∧
    (pyLower (pyStrip "0.7".data) ∉ yes_forms ∧ pyLower (pyStrip "0.7".data) ∉ no_forms ∧
      pyFloatOfString (pyLower (pyStrip "0.7".data)) = some (PyNum.fin (7 / 10)) ∧
      parse_bin (Value.str "0.7".data) =
        if pyGe (PyNum.fin (7 / 10)) (1 / 2) then 1 else 0) := by
  have hL : pyLower (pyStrip "0.7".data) = ['0', '.', '7'] := by decide
  have hF : pyFloatOfString (pyLower (pyStrip "0.7".data)) = some (PyNum.fin (7 / 10)) := by
    rw [hL]
    have hS : parseShape ['0', '.', '7'] = ParseShape.dec false ['0'] ['7'] false [] := by
      decide
    rw [pyFloatOfString, hS]
    norm_num [decValue, (by decide : digitsToNat ['0'] = 0),
      (by decide : digitsToNat ['7'] = 7), (by decide : digitsToNat ([] : List Char) = 0)]
  refine ⟨⟨by decide, C5_theorem.2.2.1 "YES".data (by decide)⟩,
    ⟨by decide, by decide, hF, ?_⟩⟩
  exact C5_theorem.2.2.2.2.2.2.2.1 "0.7".data (PyNum.fin (7 / 10)) (by decide) (by decide) hF

/-! ### Claim C7 -/

/-- C7: _to_percent passes None through and otherwise caps the probability at
0.9999, multiplies by 100 and rounds to two decimals, so every reported
percentage lies in [0, 99.99]; and every probability the service computes —
the clipped raw probability and every prior_adjust output — lies in
[eps, 1 - eps]. -/
theorem C7_theorem :
    _to_percent Option.none = Option.none ∧
    (∀ p : ℚ, 0 ≤ p →
      _to_percent (some p) = some (pyRound2 (min p (9999 / 10000) * 100))) ∧
    (∀ p v : ℚ, _to_percent (some p) = some v → 0 ≤ v ∧ v ≤ 9999 / 100) ∧
    (∀ x : ℚ, eps ≤ _clip01 x ∧ _clip01 x ≤ 1 - eps) ∧
    (∀ p t d : ℚ, eps ≤ prior_adjust p t d ∧ prior_adjust p t d ≤ 1 - eps) := by
  refine ⟨rfl, fun p hp => ?_, fun p v h => ?_, clip01_mem, fun p t d => ?_⟩
  · rw [to_percent_some, max_eq_left (le_min hp (by norm_num))]
  · rw [to_percent_some] at h
    injection h with hv
    rw [← hv]
    exact to_percent_bounds p
  · by_cases hcond : 0 < t ∧ t < 1 ∧ 0 < d ∧ d < 1
    · obtain ⟨h1, h2, h3, h4⟩ := hcond
      rw [prior_adjust_valid h1 h2 h3 h4]
      exact clip01_mem _
    · rw [prior_adjust_invalid hcond]
      exact clip01_mem p

/-- C7 witness: p = 1/2 reports exactly 50.00 percent, inside [0, 99.99]. -/
theorem C7_witness :
    (0 : ℚ) ≤ 1 / 2 ∧
    _to_percent (some (1 / 2)) = some (pyRound2 (min (1 / 2) (9999 / 10000) * 100)) ∧
    _to_percent (some (1 / 2)) = some 50 ∧
    (0 : ℚ) ≤ 50 ∧ (50 : ℚ) ≤ 9999 / 100 := by
  have h50 : _to_percent (some (1 / 2)) = some 50 := by
    norm_num [_to_percent, pyRound2, roundHalfEven]
  have hb := C7_theorem.2.2.1 (1 / 2) 50 h50
  exact ⟨by norm_num, C7_theorem.2.1 (1 / 2) (by norm_num), h50, hb.1, hb.2⟩

/-! ### Claim C8 -/

/-- C8 counterexample: for the all-negative label vector [0, 0] the code
sets the reweighting factor to 1.0, while negativeCount / max(positiveCount,1)
is 2. -/
theorem C8_counterexample :
    spw_of [0, 0] = 1 ∧
    ((([0, 0] : List ℤ).length : ℚ) - (([0, 0] : List ℤ).sum : ℚ)) /
      ((max ([0, 0] : List ℤ).sum 1 : ℤ) : ℚ) = 2 ∧
    spw_of [0, 0] ≠
      ((([0, 0] : List ℤ).length : ℚ) - (([0, 0] : List ℤ).sum : ℚ)) /
        ((max ([0, 0] : List ℤ).sum 1 : ℤ) : ℚ) := by
  refine ⟨?_, ?_, ?_⟩ <;>
    norm_num [spw_of, List.sum_cons, List.sum_nil]

/-- C8 (amended): the reweighting factor equals
negativeCount / max(positiveCount, 1) whenever the positive count is nonzero,
and equals 1.0 when the positive count is zero (the `if pos` guard bypasses
the formula there). -/
theorem C8_theorem (ytr : List ℤ) :
    (ytr.sum ≠ 0 →
      spw_of ytr = ((ytr.length : ℚ) - (ytr.sum : ℚ)) / ((max ytr.sum 1 : ℤ) : ℚ)) ∧
    (ytr.sum = 0 → spw_of ytr = 1) := by
  constructor
  · intro h
    simp only [spw_of]
    rw [if_pos h]
    push_cast
    ring
  · intro h
    simp only [spw_of]
    rw [if_neg (not_not_intro h)]

/-- C8 witness: labels [1, 0, 0] give factor (3 - 1) / max(1, 1) = 2. -/
theorem C8_witness :
    ([1, 0, 0] : List ℤ).sum ≠ 0 ∧
    spw_of [1, 0, 0] =
      ((([1, 0, 0] : List ℤ).length : ℚ) - (([1, 0, 0] : List ℤ).sum : ℚ)) /
        ((max ([1, 0, 0] : List ℤ).sum 1 : ℤ) : ℚ) := by
  have h : ([1, 0, 0] : List ℤ).sum ≠ 0 := by decide
  exact ⟨h, (C8_theorem [1, 0, 0]).1 h⟩

/-! ### Claim C9 -/

/-- C9: the serving-side parser parse_bin and the training-side parser
_parse_bin compute the same function on every value: the only textual
difference, the explicit bool branch, agrees with sending the boolean
through str/strip/lower and the yes/no string sets. -/
theorem C9_theorem (v : Value) : parse_bin v = _parse_bin v := by
  cases v with
  | none => rfl
  | bool b => cases b <;> decide
  | num q => rfl
  | str s => rfl

/-! ### Claim C2 -/

/-- C2 at the failing input: with the out-of-range training prior
PI_TRAIN = 2 and a valid deployment prior 1/2, predict_risk still reports
adjusted_for_prevalence = true — the claim (and the spec) require false —
while the main probability silently equals the raw one, because prior_adjust
internally refused the out-of-range prior. -/
theorem C2_theorem :
    testCtx.PI_TRAIN = some 2 ∧ ¬ ((0 : ℚ) < 2 ∧ (2 : ℚ) < 1) ∧
    (predict_risk testCtx testPatient (some (1 / 2))).adjusted_for_prevalence = true ∧
    p_adj testCtx testPatient (some (1 / 2)) = some (p_raw testCtx testPatient) ∧
    (predict_risk testCtx testPatient (some (1 / 2))).risk_percentage =
      (predict_risk testCtx testPatient (some (1 / 2))).raw_risk_percentage := by
  have hPT : testCtx.PI_TRAIN = some 2 := rfl
  have hu : use_pi_deploy testCtx (some (1 / 2)) = some (1 / 2) := rfl
  have hpraw : p_raw testCtx testPatient = 3 / 10 := by
    simp only [p_raw, testCtx]
    norm_num [_clip01, eps]
  have hused : used_adjustment testCtx (some (1 / 2)) = true := by
    unfold used_adjustment
    rw [hu, hPT]
    exact decide_eq_true (by norm_num)
  have hadj : p_adj testCtx testPatient (some (1 / 2)) = some (p_raw testCtx testPatient) := by
    unfold p_adj
    rw [hu, hPT]
    show (if (0 : ℚ) < 1 / 2 ∧ (1 : ℚ) / 2 < 1
        then some (prior_adjust (p_raw testCtx testPatient) 2 (1 / 2))
        else Option.none) = some (p_raw testCtx testPatient)
    rw [if_pos (by norm_num : (0 : ℚ) < 1 / 2 ∧ (1 : ℚ) / 2 < 1)]
    rw [prior_adjust_invalid (by norm_num) (p_raw testCtx testPatient), hpraw]
    norm_num [_clip01, eps]
  have hmain : p_main testCtx testPatient (some (1 / 2)) = p_raw testCtx testPatient := by
    unfold p_main
    rw [hadj]
  refine ⟨hPT, by norm_num, hused, hadj, ?_⟩
  show _to_percent (some (p_main testCtx testPatient (some (1 / 2)))) =
    _to_percent (some (p_raw testCtx testPatient))
  rw [hmain]

/-! ### Claim C6 -/

/-- C6 counterexample: the caller-supplied age string "inf" parses to the
infinite float, so the encoded feature vector contains a non-finite entry
(its length still matches FEATURE_ORDER). -/
theorem C6_counterexample :
    (features_vector testCtx infPatient).length = FEATURE_ORDER.length ∧
    parse_float infPatient.age 0 = PyNum.inf ∧
    (features_vector testCtx infPatient).all PyNum.isFinite = false := by
  exact ⟨rfl, by decide, by decide⟩

/-- C6 (amended): the encoded feature vector always has exactly the length
of FEATURE_ORDER, and every entry is finite provided the caller-supplied age
and pack_years parse to finite floats (the scaler scales are positive for a
fitted StandardScaler); non-finite parses such as the strings "inf"/"nan"
yield non-finite numeric entries. -/
theorem C6_theorem (ctx : Ctx) (pin : PatientInput) (qa qp : ℚ)
    (hA : parse_float pin.age 0 = PyNum.fin qa)
    (hP : parse_float pin.pack_years 0 = PyNum.fin qp)
    (hsa : 0 < ctx.age_scale) (hsp : 0 < ctx.py_scale) :
    (features_vector ctx pin).length = FEATURE_ORDER.length ∧
    (features_vector ctx pin).all PyNum.isFinite = true := by
  refine ⟨rfl, ?_⟩
  simp [features_vector, features_raw, hA, hP, pyScale, PyNum.isFinite]

/-- C6 witness: the well-formed request with numeric age 50 and pack_years
20 encodes to a fully finite vector of the right length. -/
theorem C6_witness :
    parse_float testPatient.age 0 = PyNum.fin 50 ∧
    parse_float testPatient.pack_years 0 = PyNum.fin 20 ∧
    (0 : ℚ) < testCtx.age_scale ∧ (0 : ℚ) < testCtx.py_scale ∧
    (features_vector testCtx testPatient).length = FEATURE_ORDER.length ∧
    (features_vector testCtx testPatient).all PyNum.isFinite = true := by
  have h := C6_theorem testCtx testPatient 50 20 rfl rfl
    (by norm_num [testCtx]) (by norm_num [testCtx])
  exact ⟨rfl, rfl, by norm_num [testCtx], by norm_num [testCtx], h.1, h.2⟩

/-! ### Claim C10 -/

/-- C10: a request-level deployment-prevalence override outside (0,1)
disables adjustment entirely — flag false, no adjusted percentage, main
equals raw — and stays the effective prior, never replaced by the
process-level default. -/
theorem C10_theorem (ctx : Ctx) (pin : PatientInput) (d : ℚ)
    (h : ¬ (0 < d ∧ d < 1)) :
    (predict_risk ctx pin (some d)).adjusted_for_prevalence = false ∧
    (predict_risk ctx pin (some d)).adjusted_risk_percentage = Option.none ∧
    (predict_risk ctx pin (some d)).risk_percentage =
      (predict_risk ctx pin (some d)).raw_risk_percentage ∧
    (predict_risk ctx pin (some d)).pi_deploy = some d := by
  have hu : use_pi_deploy ctx (some d) = some d := rfl
  have hused : used_adjustment ctx (some d) = false := by
    unfold used_adjustment
    rw [hu]
    cases hPT : ctx.PI_TRAIN with
    | none => rfl
    | some t => exact decide_eq_false h
  have hadj : p_adj ctx pin (some d) = Option.none := by
    unfold p_adj
    rw [hu]
    cases hPT : ctx.PI_TRAIN with
    | none => rfl
    | some t => exact if_neg h
  have hmain : p_main ctx pin (some d) = p_raw ctx pin := by
    unfold p_main
    rw [hadj]
  refine ⟨hused, ?_, ?_, rfl⟩
  · show (match p_adj ctx pin (some d) with
      | some a => _to_percent (some a)
      | Option.none => Option.none) = Option.none
    rw [hadj]
  · show _to_percent (some (p_main ctx pin (some d))) =
      _to_percent (some (p_raw ctx pin))
    rw [hmain]

/-- C10 witness: override 5 with a configured valid default PI_DEPLOY =
1/500: the response keeps the override and reports no adjustment. -/
theorem C10_witness :
    ¬ ((0 : ℚ) < 5 ∧ (5 : ℚ) < 1) ∧ testCtx.PI_DEPLOY = some (1 / 500) ∧
    (predict_risk testCtx testPatient (some 5)).adjusted_for_prevalence = false ∧
    (predict_risk testCtx testPatient (some 5)).adjusted_risk_percentage = Option.none ∧
    (predict_risk testCtx testPatient (some 5)).pi_deploy = some 5 := by
  have h : ¬ ((0 : ℚ) < 5 ∧ (5 : ℚ) < 1) := by norm_num
  have hh := C10_theorem testCtx testPatient 5 h
  exact ⟨h, rfl, hh.1, hh.2.1, hh.2.2.2⟩

end LungRisk
